import Mathlib

/-
Shallow embedding of src/app.py (SteamGames-Downloader).

The program is a single class `SteamCMDDownloader` holding one mutable
session record `current_download`, a subprocess handle `process`, and a
list `public_links`.  We embed:

  * `_extract_game_id`   -> `extract_game_id`   (regex `app/(\d+)` modelled
                             as a leftmost scan `findAppId`)
  * `_parse_progress`    -> `parse_progress`    (the two `re.search` calls
                             modelled as leftmost scanners `searchPercent`
                             and `searchSize`; floats modelled as ℚ)
  * `download_game`      -> `download_game`     (filesystem/`Popen` effects
                             abstracted into a `spawnOk` parameter)
  * the per-line body of `_monitor_download_progress` -> `monitor_line`,
    its after-stream epilogue -> `monitor_end`, whole runs -> `monitor_run`
  * `_create_public_links` -> `publishLinks`    (only the pure link-list
                             construction; symlink/manifest I/O elided, the
                             exception path of the `try` is not modelled)
  * `get_download_status` -> `get_download_status`
  * `cancel_download`    -> `cancel_download`

Strings are `List Char`; wall-clock instants are rationals (seconds).
-/

abbrev Str := List Char

def str (s : String) : Str := s.data

/-- Python `line.strip()` restricted to the common ASCII whitespace. -/
def isSpaceCh (c : Char) : Bool := c = ' ' || c = '\n' || c = '\t' || c = '\r'

def pyStrip (l : Str) : Str :=
  ((l.dropWhile isSpaceCh).reverse.dropWhile isSpaceCh).reverse

/-- `hasPrefixL l p` : does `l` start with `p`? -/
def hasPrefixL : Str → Str → Bool
  | _, [] => true
  | [], _ :: _ => false
  | c :: cs, p :: ps => (c == p) && hasPrefixL cs ps

/-- Python `pat in l` (substring containment). -/
def containsSub : Str → Str → Bool
  | [], pat => hasPrefixL [] pat
  | c :: cs, pat => hasPrefixL (c :: cs) pat || containsSub cs pat

/-- Python `s.isdigit()` (ASCII fragment): nonempty and all digits. -/
def pyIsDigit (s : Str) : Bool := !s.isEmpty && s.all Char.isDigit

/-- Value of a digit string read in base 10. -/
def digitsToNat (l : Str) : Nat :=
  l.foldl (fun acc c => acc * 10 + (c.toNat - '0'.toNat)) 0

/-- Python `float(g)` for a regex group of shape `\d+\.?\d*`, exactly (ℚ). -/
def parseNum (s : Str) : ℚ :=
  match s.dropWhile Char.isDigit with
  | '.' :: frac => (digitsToNat (s.takeWhile Char.isDigit) : ℚ) +
      (digitsToNat frac : ℚ) / ((10 : ℚ) ^ frac.length)
  | _ => (digitsToNat (s.takeWhile Char.isDigit) : ℚ)

/-- Python `\w` (ASCII fragment): letters, digits, underscore. -/
def isWordChar (c : Char) : Bool := c.isAlphanum || c = '_'

/-- Anchored match of `\d+\.?\d*`: returns the matched group and the rest.
For this pattern, greedy matching without backtracking is exact. -/
def matchNumber (l : Str) : Option (Str × Str) :=
  if (l.takeWhile Char.isDigit).isEmpty then none
  else
    match l.dropWhile Char.isDigit with
    | '.' :: r2 =>
        some (l.takeWhile Char.isDigit ++ '.' :: r2.takeWhile Char.isDigit,
              r2.dropWhile Char.isDigit)
    | r1 => some (l.takeWhile Char.isDigit, r1)

/-- Anchored match of `\w+`: matched word and the rest. -/
def matchWord (l : Str) : Option (Str × Str) :=
  if (l.takeWhile isWordChar).isEmpty then none
  else some (l.takeWhile isWordChar, l.dropWhile isWordChar)

/-- Anchored match of `(\d+\.?\d*)%` (group only). -/
def matchPercentAt (l : Str) : Option Str :=
  match matchNumber l with
  | some (g, '%' :: _) => some g
  | _ => none

/-- `re.search(r'(\d+\.?\d*)%', line)`: leftmost match's group. -/
def searchPercent : Str → Option Str
  | [] => none
  | c :: cs =>
    match matchPercentAt (c :: cs) with
    | some g => some g
    | none => searchPercent cs

/-- Anchored match of `(\d+\.?\d*) (\w+) / (\d+\.?\d*) (\w+)`:
the four groups. -/
def matchSizeAt (l : Str) : Option (Str × Str × Str × Str) :=
  match matchNumber l with
  | some (n1, ' ' :: r1) =>
    match matchWord r1 with
    | some (u1, ' ' :: '/' :: ' ' :: r2) =>
      match matchNumber r2 with
      | some (n2, ' ' :: r3) =>
        match matchWord r3 with
        | some (u2, _) => some (n1, u1, n2, u2)
        | none => none
      | _ => none
    | _ => none
  | _ => none

/-- `re.search` for the size regex: leftmost match's groups. -/
def searchSize : Str → Option (Str × Str × Str × Str)
  | [] => none
  | c :: cs =>
    match matchSizeAt (c :: cs) with
    | some r => some r
    | none => searchSize cs

/-- The unit-conversion `if/elif` chain of `_parse_progress`
(KB divided by 1024, GB multiplied by 1024, anything else unchanged). -/
def convertToMB (v : ℚ) (u : Str) : ℚ :=
  if u = str "KB" then v / 1024
  else if u = str "GB" then v * 1024
  else v

/-- Python `int()` on a rational: truncation toward zero. -/
def pyInt (q : ℚ) : ℤ := if 0 ≤ q then ⌊q⌋ else ⌈q⌉

inductive Status where
  | idle | preparing | downloading | completed | error | cancelled
deriving DecidableEq

/-- The `current_download` dict of `SteamCMDDownloader`. -/
structure Download where
  game_id : Option Str
  progress : ℚ
  status : Status
  start_time : Option ℚ
  current_size : ℚ
  total_size : ℚ
  speed : ℚ
  remaining_time : Option ℤ
  log : List Str
deriving DecidableEq

/-- First block of `_parse_progress`: the percentage regex. -/
def applyPercent (line : Str) (d : Download) : Download :=
  match searchPercent line with
  | some g => { d with progress := parseNum g }
  | none => d

/-- Speed/remaining-time block of `_parse_progress` (runs only after a size
match; `cs`/`ts` are the freshly converted sizes). -/
def applyRate (now cs ts : ℚ) (d : Download) : Download :=
  match d.start_time with
  | none => d
  | some st =>
    if 0 < now - st then
      if 0 < cs / (now - st) then
        { d with speed := cs / (now - st),
                 remaining_time := some (pyInt ((ts - cs) / (cs / (now - st)))) }
      else { d with speed := cs / (now - st) }
    else d

/-- Size block of `_parse_progress`: the size regex, unit conversion and the
speed/remaining-time computation. -/
def applySize (now : ℚ) (line : Str) (d : Download) : Download :=
  match searchSize line with
  | none => d
  | some (n1, u1, n2, u2) =>
    applyRate now (convertToMB (parseNum n1) u1) (convertToMB (parseNum n2) u2)
      { d with current_size := convertToMB (parseNum n1) u1,
               total_size := convertToMB (parseNum n2) u2 }

/-- `SteamCMDDownloader._parse_progress` (`now` is the wall clock read by
`datetime.now()` inside it). -/
def parse_progress (now : ℚ) (line : Str) (d : Download) : Download :=
  applySize now line (applyPercent line d)

/-- Anchored match of `app/(\d+)` (the group). -/
def appMatchAt : Str → Option Str
  | 'a' :: 'p' :: 'p' :: '/' :: rest =>
    if (rest.takeWhile Char.isDigit).isEmpty then none
    else some (rest.takeWhile Char.isDigit)
  | _ => none

/-- `re.search(r'app/(\d+)', s)`: leftmost match's group. -/
def findAppId : Str → Option Str
  | [] => none
  | c :: cs =>
    match appMatchAt (c :: cs) with
    | some d => some d
    | none => findAppId cs

/-- `SteamCMDDownloader._extract_game_id`. -/
def extract_game_id (s : Str) : Option Str :=
  if pyIsDigit s then some s else findAppId s

inductive ProcState where
  | running   -- `poll()` returns `None`
  | exited
deriving DecidableEq

/-- The mutable attributes of a `SteamCMDDownloader` instance, plus the
ghost counter `publishCalls` counting invocations of
`_create_public_links`. -/
structure Downloader where
  process : Option ProcState
  current_download : Download
  public_links : List (Str × Str)
  publishCalls : Nat
deriving DecidableEq

/-- `__init__`'s `current_download` dict. -/
def initDownload : Download :=
  { game_id := none, progress := 0, status := .idle, start_time := none,
    current_size := 0, total_size := 0, speed := 0, remaining_time := none,
    log := [] }

/-- `SteamCMDDownloader.__init__`. -/
def initDownloader : Downloader :=
  { process := none, current_download := initDownload, public_links := [],
    publishCalls := 0 }

/-- The pure part of `_create_public_links`: the two (name, url) link dicts
built for `game_id` (symlink and manifest I/O elided; `RAILWAY_PUBLIC_URL`
taken at its default `http://localhost:7860`). -/
def publishLinks (gid : Option Str) : List (Str × Str) :=
  [(str "Game Files Directory",
    str "http://localhost:7860/public/app_" ++ gid.getD []),
   (str "Game Files Manifest",
    str "http://localhost:7860/public/app_" ++ gid.getD [] ++
      str "/manifest.txt")]

/-- The per-line body of `_monitor_download_progress`: append the stripped
line to the log, run `_parse_progress`, then check the markers. -/
def monitor_line (now : ℚ) (line : Str) (s : Downloader) : Downloader :=
  let d := parse_progress now line
    { s.current_download with log := s.current_download.log ++ [pyStrip line] }
  if containsSub line (str "Success!") then
    { s with
      current_download := { d with status := .completed, progress := 100 },
      public_links := publishLinks d.game_id,
      publishCalls := s.publishCalls + 1 }
  else if containsSub line (str "ERROR!") || containsSub line (str "Failed") then
    { s with current_download := { d with status := .error } }
  else
    { s with current_download := d }

/-- The epilogue of `_monitor_download_progress` after the line stream ends:
`process.wait()`, then the unexpected-exit check. -/
def monitor_end (s : Downloader) : Downloader :=
  let s1 : Downloader := { s with process := some ProcState.exited }
  if s1.current_download.status = Status.downloading then
    { s1 with current_download :=
      { s1.current_download with
          status := Status.error
          log := s1.current_download.log ++
            [str "Process ended unexpectedly"] } }
  else s1

/-- The whole `for` loop of `_monitor_download_progress`: each timed output
line processed in order. -/
def monitorLines (lines : List (ℚ × Str)) (s : Downloader) : Downloader :=
  lines.foldl (fun s p => monitor_line p.1 p.2 s) s

/-- One whole run of the Monitor Loop: each timed output line in order,
then the epilogue. -/
def monitor_run (lines : List (ℚ × Str)) (s : Downloader) : Downloader :=
  monitor_end (monitorLines lines s)

/-- `SteamCMDDownloader.download_game`.  `now` is `datetime.now()`;
`spawnOk` abstracts whether `subprocess.Popen` raises (the `except` branch).
Returns the new state, the success flag and the message. -/
def download_game (spawnOk : Bool) (now : ℚ) (game_input : Str)
    (s : Downloader) : Downloader × Bool × Str :=
  match extract_game_id game_input with
  | none => (s, false, str "Invalid game ID or URL")
  | some gid =>
    let d0 : Download :=
      { game_id := some gid, progress := 0, status := .preparing,
        start_time := some now, current_size := 0, total_size := 0,
        speed := 0, remaining_time := none, log := [] }
    if spawnOk then
      ({ s with current_download := { d0 with status := .downloading },
                process := some ProcState.running },
       true, str "Download started")
    else
      ({ s with current_download :=
          { d0 with status := .error, log := [str "Error: spawn failed"] } },
       false, str "Download error: spawn failed")

/-- The dict returned by `get_download_status` (the `str(...)` time
formatting is elided: `elapsed_time` is kept in seconds, 0 standing for the
`"00:00:00"` default, and `remaining_time` is kept as the optional second
count whose `None` renders as `"calculating..."`). -/
structure StatusView where
  game_id : Option Str
  progress : ℚ
  status : Status
  current_size : ℚ
  total_size : ℚ
  speed : ℚ
  elapsed_time : ℚ
  remaining_time : Option ℤ
  log : List Str
  public_links : List (Str × Str)
deriving DecidableEq

/-- `SteamCMDDownloader.get_download_status`. -/
def get_download_status (now : ℚ) (s : Downloader) : StatusView :=
  { game_id := s.current_download.game_id,
    progress := s.current_download.progress,
    status := s.current_download.status,
    current_size := s.current_download.current_size,
    total_size := s.current_download.total_size,
    speed := s.current_download.speed,
    elapsed_time :=
      match s.current_download.start_time with
      | some st => now - st
      | none => 0,
    remaining_time := s.current_download.remaining_time,
    log := s.current_download.log,
    public_links := s.public_links }

/-- `SteamCMDDownloader.cancel_download`: returns the new state and the
boolean result. -/
def cancel_download (s : Downloader) : Downloader × Bool :=
  if s.process = some ProcState.running then
    ({ s with process := some ProcState.exited,
              current_download :=
                { s.current_download with status := .cancelled } },
     true)
  else (s, false)

/-- The operations that can touch the downloader's state, for reachability
arguments: a download request, one monitor-loop line, the monitor-loop
epilogue at process exit, and a cancellation request. -/
inductive Op where
  | start (spawnOk : Bool) (now : ℚ) (input : Str)
  | line (now : ℚ) (l : Str)
  | procEnd
  | cancel

def applyOp (s : Downloader) : Op → Downloader
  | .start ok now inp => (download_game ok now inp s).1
  | .line now l => monitor_line now l s
  | .procEnd => monitor_end s
  | .cancel => (cancel_download s).1

/-- A state reached from start-up by a concrete operation sequence. -/
def runOps (ops : List Op) (s : Downloader) : Downloader := ops.foldl applyOp s

/-! ### Basic lemmas about the embedded operations -/

lemma applyPercent_none {line : Str} (d : Download)
    (h : searchPercent line = none) : applyPercent line d = d := by
  simp [applyPercent, h]

lemma applyPercent_some {line g : Str} (d : Download)
    (h : searchPercent line = some g) :
    applyPercent line d = { d with progress := parseNum g } := by
  simp [applyPercent, h]

lemma applyPercent_fields (line : Str) (d : Download) :
    (applyPercent line d).status = d.status ∧
    (applyPercent line d).start_time = d.start_time ∧
    (applyPercent line d).current_size = d.current_size ∧
    (applyPercent line d).total_size = d.total_size ∧
    (applyPercent line d).speed = d.speed ∧
    (applyPercent line d).remaining_time = d.remaining_time ∧
    (applyPercent line d).log = d.log ∧
    (applyPercent line d).game_id = d.game_id := by
  unfold applyPercent
  split <;> simp

lemma applyRate_no_start {now cs ts : ℚ} {d : Download}
    (h : d.start_time = none) : applyRate now cs ts d = d := by
  simp [applyRate, h]

lemma applyRate_no_elapsed {now cs ts st : ℚ} {d : Download}
    (h : d.start_time = some st) (h2 : ¬ 0 < now - st) :
    applyRate now cs ts d = d := by
  simp [applyRate, h, h2]

lemma applyRate_slow {now cs ts st : ℚ} {d : Download}
    (h : d.start_time = some st) (h2 : 0 < now - st)
    (h3 : ¬ 0 < cs / (now - st)) :
    applyRate now cs ts d = { d with speed := cs / (now - st) } := by
  simp [applyRate, h, h2, h3]

lemma applyRate_fast {now cs ts st : ℚ} {d : Download}
    (h : d.start_time = some st) (h2 : 0 < now - st)
    (h3 : 0 < cs / (now - st)) :
    applyRate now cs ts d =
      { d with speed := cs / (now - st),
               remaining_time := some (pyInt ((ts - cs) / (cs / (now - st)))) } := by
  simp [applyRate, h, h2, h3]

lemma applyRate_fields (now cs ts : ℚ) (d : Download) :
    (applyRate now cs ts d).game_id = d.game_id ∧
    (applyRate now cs ts d).progress = d.progress ∧
    (applyRate now cs ts d).status = d.status ∧
    (applyRate now cs ts d).start_time = d.start_time ∧
    (applyRate now cs ts d).current_size = d.current_size ∧
    (applyRate now cs ts d).total_size = d.total_size ∧
    (applyRate now cs ts d).log = d.log := by
  unfold applyRate
  split
  · simp
  · split_ifs <;> simp

lemma applySize_none {now : ℚ} {line : Str} (d : Download)
    (h : searchSize line = none) : applySize now line d = d := by
  simp [applySize, h]

lemma applySize_some {now : ℚ} {line n1 u1 n2 u2 : Str} (d : Download)
    (h : searchSize line = some (n1, u1, n2, u2)) :
    applySize now line d =
      applyRate now (convertToMB (parseNum n1) u1) (convertToMB (parseNum n2) u2)
        { d with current_size := convertToMB (parseNum n1) u1,
                 total_size := convertToMB (parseNum n2) u2 } := by
  simp [applySize, h]

lemma applySize_fields (now : ℚ) (line : Str) (d : Download) :
    (applySize now line d).game_id = d.game_id ∧
    (applySize now line d).progress = d.progress ∧
    (applySize now line d).status = d.status ∧
    (applySize now line d).start_time = d.start_time ∧
    (applySize now line d).log = d.log := by
  cases h : searchSize line with
  | none => rw [applySize_none d h]; exact ⟨rfl, rfl, rfl, rfl, rfl⟩
  | some q =>
    obtain ⟨n1, u1, n2, u2⟩ := q
    rw [applySize_some d h]
    obtain ⟨h1, h2, h3, h4, -, -, h7⟩ :=
      applyRate_fields now (convertToMB (parseNum n1) u1)
        (convertToMB (parseNum n2) u2)
        { d with current_size := convertToMB (parseNum n1) u1,
                 total_size := convertToMB (parseNum n2) u2 }
    refine ⟨?_, ?_, ?_, ?_, ?_⟩ <;> simp [h1, h2, h3, h4, h7]

lemma parse_progress_fields (now : ℚ) (line : Str) (d : Download) :
    (parse_progress now line d).game_id = d.game_id ∧
    (parse_progress now line d).status = d.status ∧
    (parse_progress now line d).start_time = d.start_time ∧
    (parse_progress now line d).log = d.log := by
  unfold parse_progress
  rcases applySize_fields now line (applyPercent line d) with ⟨h1, _, h3, h4, h5⟩
  rcases applyPercent_fields line d with ⟨g1, g2, _, _, _, _, g7, g8⟩
  exact ⟨h1.trans g8, h3.trans g1, h4.trans g2, h5.trans g7⟩

lemma parse_progress_nomatch {now : ℚ} {line : Str} (d : Download)
    (hp : searchPercent line = none) (hs : searchSize line = none) :
    parse_progress now line d = d := by
  unfold parse_progress
  rw [applyPercent_none d hp, applySize_none d hs]

lemma convertToMB_KB (v : ℚ) : convertToMB v (str "KB") = v / 1024 := by
  simp [convertToMB]

lemma convertToMB_MB (v : ℚ) : convertToMB v (str "MB") = v := by
  rw [convertToMB, if_neg (by decide), if_neg (by decide)]

lemma convertToMB_GB (v : ℚ) : convertToMB v (str "GB") = v * 1024 := by
  rw [convertToMB, if_neg (by decide), if_pos rfl]

lemma monitor_line_success {line : Str} (now : ℚ) (s : Downloader)
    (h : containsSub line (str "Success!") = true) :
    (monitor_line now line s).current_download.status = Status.completed ∧
    (monitor_line now line s).current_download.progress = 100 ∧
    (monitor_line now line s).publishCalls = s.publishCalls + 1 ∧
    (monitor_line now line s).public_links =
      publishLinks s.current_download.game_id ∧
    (monitor_line now line s).process = s.process := by
  have hg := (parse_progress_fields now line
    { s.current_download with
        log := s.current_download.log ++ [pyStrip line] }).1
  simp [monitor_line, h, hg]

lemma monitor_line_failure {line : Str} (now : ℚ) (s : Downloader)
    (h1 : containsSub line (str "Success!") = false)
    (h2 : (containsSub line (str "ERROR!") || containsSub line (str "Failed")) = true) :
    (monitor_line now line s).current_download.status = Status.error ∧
    (monitor_line now line s).publishCalls = s.publishCalls ∧
    (monitor_line now line s).public_links = s.public_links ∧
    (monitor_line now line s).process = s.process := by
  simp [monitor_line, h1, h2]

lemma monitor_line_plain {line : Str} (now : ℚ) (s : Downloader)
    (h1 : containsSub line (str "Success!") = false)
    (h2 : containsSub line (str "ERROR!") = false)
    (h3 : containsSub line (str "Failed") = false) :
    (monitor_line now line s).current_download =
      parse_progress now line
        { s.current_download with
            log := s.current_download.log ++ [pyStrip line] } ∧
    (monitor_line now line s).publishCalls = s.publishCalls ∧
    (monitor_line now line s).public_links = s.public_links ∧
    (monitor_line now line s).process = s.process := by
  simp [monitor_line, h1, h2, h3]

lemma monitor_line_status_plain {line : Str} (now : ℚ) (s : Downloader)
    (h1 : containsSub line (str "Success!") = false)
    (h2 : containsSub line (str "ERROR!") = false)
    (h3 : containsSub line (str "Failed") = false) :
    (monitor_line now line s).current_download.status =
      s.current_download.status := by
  rw [(monitor_line_plain now s h1 h2 h3).1]
  exact (parse_progress_fields now line _).2.1

lemma monitor_line_calls (now : ℚ) (line : Str) (s : Downloader) :
    (monitor_line now line s).publishCalls =
      s.publishCalls +
        (if containsSub line (str "Success!") = true then 1 else 0) := by
  unfold monitor_line
  split_ifs with h1 h2 <;> simp_all

/-- Number of lines of the stream containing the success marker. -/
def countSuccess (lines : List (ℚ × Str)) : Nat :=
  lines.countP (fun p => containsSub p.2 (str "Success!"))

lemma monitorLines_calls (lines : List (ℚ × Str)) (s : Downloader) :
    (monitorLines lines s).publishCalls =
      s.publishCalls + countSuccess lines := by
  induction lines generalizing s with
  | nil => simp [monitorLines, countSuccess]
  | cons p rest ih =>
    have hstep := monitor_line_calls p.1 p.2 s
    have := ih (monitor_line p.1 p.2 s)
    simp only [monitorLines, List.foldl_cons] at this ⊢
    rw [this, hstep]
    unfold countSuccess
    rw [List.countP_cons]
    by_cases h : containsSub p.2 (str "Success!") = true
    · simp [h]
      omega
    · simp [h]

lemma monitorLines_status_plain (lines : List (ℚ × Str)) (s : Downloader)
    (h : ∀ p ∈ lines, containsSub p.2 (str "Success!") = false ∧
      containsSub p.2 (str "ERROR!") = false ∧
      containsSub p.2 (str "Failed") = false) :
    (monitorLines lines s).current_download.status =
      s.current_download.status := by
  induction lines generalizing s with
  | nil => rfl
  | cons p rest ih =>
    obtain ⟨h1, h2, h3⟩ := h p (List.mem_cons_self p rest)
    have hs := monitor_line_status_plain p.1 s h1 h2 h3
    have := ih (monitor_line p.1 p.2 s) (fun q hq => h q (List.mem_cons_of_mem p hq))
    simp only [monitorLines, List.foldl_cons] at this ⊢
    rw [this, hs]

lemma monitor_end_of_terminal (s : Downloader)
    (h : s.current_download.status ≠ Status.downloading) :
    monitor_end s = { s with process := some ProcState.exited } := by
  simp [monitor_end, h]

lemma monitor_end_of_downloading (s : Downloader)
    (h : s.current_download.status = Status.downloading) :
    monitor_end s =
      { s with process := some ProcState.exited,
               current_download :=
                 { s.current_download with
                     status := Status.error
                     log := s.current_download.log ++
                       [str "Process ended unexpectedly"] } } := by
  simp [monitor_end, h]

lemma cancel_download_dead (s : Downloader)
    (h : ¬ s.process = some ProcState.running) :
    cancel_download s = (s, false) := by
  simp [cancel_download, h]

lemma download_game_invalid (ok : Bool) (now : ℚ) (inp : Str) (s : Downloader)
    (h : extract_game_id inp = none) :
    download_game ok now inp s = (s, false, str "Invalid game ID or URL") := by
  simp [download_game, h]

lemma download_game_valid (now : ℚ) {inp gid : Str} (s : Downloader)
    (h : extract_game_id inp = some gid) :
    (download_game true now inp s).1 =
      { s with
          process := some ProcState.running,
          current_download :=
            { game_id := some gid, progress := 0, status := Status.downloading,
              start_time := some now, current_size := 0, total_size := 0,
              speed := 0, remaining_time := none, log := [] } } := by
  simp [download_game, h]

/-! ### Lemmas about substring search and `extract_game_id` -/

lemma hasPrefixL_cons {l : Str} {p : Char} {ps : Str}
    (h : hasPrefixL l (p :: ps) = true) :
    ∃ t, l = p :: t ∧ hasPrefixL t ps = true := by
  cases l with
  | nil => simp [hasPrefixL] at h
  | cons c cs =>
    simp only [hasPrefixL, Bool.and_eq_true, beq_iff_eq] at h
    exact ⟨cs, by rw [h.1], h.2⟩

lemma hasPrefixL_takeWhile (p : Char → Bool) (l : Str) :
    hasPrefixL l (l.takeWhile p) = true := by
  induction l with
  | nil => rfl
  | cons c cs ih =>
    rw [List.takeWhile_cons]
    by_cases h : p c
    · simp [h, hasPrefixL, ih]
    · simp [h, hasPrefixL]

lemma hasPrefixL_nil (l : Str) : hasPrefixL l [] = true := by
  cases l <;> rfl

lemma hasPrefixL_append {as : Str} : ∀ {l bs : Str},
    hasPrefixL l (as ++ bs) = true → hasPrefixL l as = true := by
  induction as with
  | nil => intro l bs _; exact hasPrefixL_nil l
  | cons a as ih =>
    intro l bs h
    obtain ⟨t, ht, h2⟩ := hasPrefixL_cons h
    subst ht
    simp only [hasPrefixL, Bool.and_eq_true, beq_self_eq_true, true_and]
    exact ih h2

lemma containsSub_mono (pat ext : Str) : ∀ {l : Str},
    containsSub l (pat ++ ext) = true → containsSub l pat = true := by
  intro l
  induction l with
  | nil =>
    intro h
    simp only [containsSub] at h ⊢
    exact hasPrefixL_append h
  | cons c cs ih =>
    intro h
    simp only [containsSub, Bool.or_eq_true] at h ⊢
    rcases h with h | h
    · exact Or.inl (hasPrefixL_append h)
    · exact Or.inr (ih h)

lemma containsSub_head_mem {p : Char} {ps : Str} : ∀ {l : Str},
    containsSub l (p :: ps) = true → p ∈ l := by
  intro l
  induction l with
  | nil => intro h; simp [containsSub, hasPrefixL] at h
  | cons c cs ih =>
    intro h
    simp only [containsSub, Bool.or_eq_true] at h
    rcases h with h | h
    · obtain ⟨t, ht, -⟩ := hasPrefixL_cons h
      rw [ht]; exact List.mem_cons_self p t
    · exact List.mem_cons_of_mem c (ih h)

lemma containsSub_of_prefixL {l pat : Str} (h : hasPrefixL l pat = true) :
    containsSub l pat = true := by
  cases l with
  | nil => simp [containsSub, h]
  | cons c cs => simp [containsSub, h]

lemma appMatchAt_digit {c : Char} (t : Str) (h : c.isDigit = true) :
    appMatchAt ('a' :: 'p' :: 'p' :: '/' :: c :: t) =
      some ((c :: t).takeWhile Char.isDigit) := by
  simp [appMatchAt, List.takeWhile_cons, h]

lemma appMatchAt_sound {l d : Str} (h : appMatchAt l = some d) :
    ∃ rest, l = 'a' :: 'p' :: 'p' :: '/' :: rest ∧
      d = rest.takeWhile Char.isDigit ∧ d ≠ [] := by
  unfold appMatchAt at h
  split at h
  · rename_i rest
    split_ifs at h with he
    have hd : List.takeWhile Char.isDigit rest = d :=
      (Option.some.injEq _ _).mp h
    refine ⟨rest, rfl, hd.symm, fun hnil => he ?_⟩
    rw [hd, hnil]
    rfl
  · exact absurd h (by simp)

lemma findAppId_sound : ∀ {l d : Str}, findAppId l = some d →
    d ≠ [] ∧ d.all Char.isDigit = true ∧
    containsSub l ('a' :: 'p' :: 'p' :: '/' :: d) = true := by
  intro l
  induction l with
  | nil => intro d h; simp [findAppId] at h
  | cons x xs ih =>
    intro d h
    rw [findAppId] at h
    cases hm : appMatchAt (x :: xs) with
    | some e =>
      rw [hm] at h
      simp only [Option.some.injEq] at h
      subst h
      obtain ⟨rest, hshape, hd, hne⟩ := appMatchAt_sound hm
      refine ⟨hne, ?_, ?_⟩
      · rw [hd]
        exact List.all_eq_true.mpr (fun c hc => List.mem_takeWhile_imp hc)
      · rw [hshape]
        apply containsSub_of_prefixL
        simp only [hasPrefixL, Bool.and_eq_true, beq_self_eq_true, true_and]
        rw [hd]
        exact hasPrefixL_takeWhile Char.isDigit rest
    | none =>
      rw [hm] at h
      simp only at h
      obtain ⟨h1, h2, h3⟩ := ih h
      refine ⟨h1, h2, ?_⟩
      simp only [containsSub, Bool.or_eq_true]
      exact Or.inr h3

lemma findAppId_isSome {c : Char} (hc : c.isDigit = true) : ∀ {l : Str},
    containsSub l ('a' :: 'p' :: 'p' :: '/' :: [c]) = true →
    ∃ d, findAppId l = some d := by
  intro l
  induction l with
  | nil => intro h; simp [containsSub, hasPrefixL] at h
  | cons x xs ih =>
    intro h
    simp only [containsSub, Bool.or_eq_true] at h
    rcases h with h | h
    · obtain ⟨t1, he1, h1⟩ := hasPrefixL_cons h
      obtain ⟨t2, he2, h2⟩ := hasPrefixL_cons h1
      obtain ⟨t3, he3, h3⟩ := hasPrefixL_cons h2
      obtain ⟨t4, he4, h4⟩ := hasPrefixL_cons h3
      obtain ⟨t5, he5, -⟩ := hasPrefixL_cons h4
      rw [he2, he3, he4, he5] at he1
      injection he1 with hx hxs
      subst hx
      subst hxs
      rw [findAppId, appMatchAt_digit t5 hc]
      exact ⟨_, rfl⟩
    · obtain ⟨d, hd⟩ := ih h
      rw [findAppId]
      cases hm : appMatchAt (x :: xs) with
      | some e => exact ⟨e, rfl⟩
      | none => exact ⟨d, hd⟩

lemma parseNum_eval (s frac : Str)
    (h : s.dropWhile Char.isDigit = '.' :: frac) :
    parseNum s = (digitsToNat (s.takeWhile Char.isDigit) : ℚ) +
      (digitsToNat frac : ℚ) / ((10 : ℚ) ^ frac.length) := by
  unfold parseNum
  rw [h]
  rfl

lemma parseNum_nil {s : Str} (h : s.dropWhile Char.isDigit = []) :
    parseNum s = (digitsToNat (s.takeWhile Char.isDigit) : ℚ) := by
  unfold parseNum
  rw [h]

lemma parse_progress_progress {now : ℚ} {line g : Str} (d : Download)
    (hp : searchPercent line = some g) :
    (parse_progress now line d).progress = parseNum g := by
  unfold parse_progress
  have h1 := (applySize_fields now line (applyPercent line d)).2.1
  rw [h1, applyPercent_some d hp]

lemma parse_progress_sizes (now : ℚ) {line n1 u1 n2 u2 : Str} (d : Download)
    (h : searchSize line = some (n1, u1, n2, u2)) :
    (parse_progress now line d).current_size = convertToMB (parseNum n1) u1 ∧
    (parse_progress now line d).total_size = convertToMB (parseNum n2) u2 := by
  unfold parse_progress
  rw [applySize_some _ h]
  obtain ⟨-, -, -, -, h5, h6, -⟩ :=
    applyRate_fields now (convertToMB (parseNum n1) u1)
      (convertToMB (parseNum n2) u2)
      { applyPercent line d with
          current_size := convertToMB (parseNum n1) u1,
          total_size := convertToMB (parseNum n2) u2 }
  exact ⟨by rw [h5], by rw [h6]⟩

lemma monitor_end_calls (s : Downloader) :
    (monitor_end s).publishCalls = s.publishCalls := by
  by_cases h : s.current_download.status = Status.downloading
  · rw [monitor_end_of_downloading s h]
  · rw [monitor_end_of_terminal s h]

lemma monitor_run_calls (lines : List (ℚ × Str)) (s : Downloader) :
    (monitor_run lines s).publishCalls = s.publishCalls + countSuccess lines := by
  unfold monitor_run
  rw [monitor_end_calls, monitorLines_calls]

/-! ### Concrete fixtures used by the claim-level theorems -/

/-- A downloader mid-download: live child process, status `downloading`. -/
def dlRunning : Downloader :=
  { process := some ProcState.running,
    current_download := { initDownload with status := Status.downloading },
    public_links := [], publishCalls := 0 }

/-- A downloader whose session reached `completed` while the child process
is still emitting output (exactly the state right after a `Success!` line,
before the stream ends). -/
def dlCompleted : Downloader :=
  { process := some ProcState.running,
    current_download := { initDownload with status := Status.completed },
    public_links := [], publishCalls := 1 }

/-- A downloader with a `cancelled` session whose child already exited. -/
def dlCancelledDead : Downloader :=
  { process := some ProcState.exited,
    current_download := { initDownload with status := Status.cancelled },
    public_links := [], publishCalls := 0 }

/-- Operation sequence: a download of app 123456 completes and publishes
links, then a second download request for the same app is accepted. -/
def c2ops : List Op :=
  [Op.start true 0 (str "123456"), Op.line 1 (str "Success!"), Op.procEnd,
   Op.start true 20 (str "123456")]

/-! ### Claim-level theorems -/

/-- C8: identifier resolution.  A string of digits (Python `isdigit`)
resolves to itself; a string containing the substring pattern
`app/<digits>` resolves to a nonempty digit string `d` such that `app/` ++
`d` occurs in the input; any other string resolves to no identifier. -/
theorem C8_identifier_resolution (s : Str) :
    (pyIsDigit s = true → extract_game_id s = some s) ∧
    (∀ c : Char, c.isDigit = true →
      containsSub s (str "app/" ++ [c]) = true →
      ∃ d, extract_game_id s = some d ∧ d ≠ [] ∧
        d.all Char.isDigit = true ∧
        containsSub s (str "app/" ++ d) = true) ∧
    ((pyIsDigit s = false ∧
      (∀ c : Char, c.isDigit = true →
        containsSub s (str "app/" ++ [c]) = false)) →
      extract_game_id s = none) := by
  refine ⟨fun h => by simp [extract_game_id, h], ?_, ?_⟩
  · intro c hc hsub
    have hsub' : containsSub s ('a' :: 'p' :: 'p' :: '/' :: [c]) = true := hsub
    have hne : pyIsDigit s = false := by
      cases hpd : pyIsDigit s with
      | false => rfl
      | true =>
        exfalso
        have ha : 'a' ∈ s := containsSub_head_mem hsub'
        have hall : s.all Char.isDigit = true := by
          simp only [pyIsDigit, Bool.and_eq_true] at hpd
          exact hpd.2
        exact absurd (List.all_eq_true.mp hall 'a' ha) (by decide)
    obtain ⟨d, hd⟩ := findAppId_isSome hc hsub'
    obtain ⟨h1, h2, h3⟩ := findAppId_sound hd
    exact ⟨d, by simp [extract_game_id, hne, hd], h1, h2, h3⟩
  · rintro ⟨h1, h2⟩
    rw [extract_game_id, if_neg (by simp [h1])]
    cases hfa : findAppId s with
    | none => rfl
    | some d =>
      exfalso
      obtain ⟨hne, hall, hcon⟩ := findAppId_sound hfa
      cases d with
      | nil => exact hne rfl
      | cons c d2 =>
        have hc : c.isDigit = true :=
          List.all_eq_true.mp hall c (List.mem_cons_self c d2)
        have : containsSub s (str "app/" ++ [c]) = true :=
          containsSub_mono (str "app/" ++ [c]) d2 hcon
        exact absurd this (by simp [h2 c hc])

/-- C8 witness: the three spec examples, via `C8_identifier_resolution`. -/
theorem C8_identifier_resolution_witness :
    extract_game_id (str "123456") = some (str "123456") ∧
    extract_game_id (str "https://store.example.com/app/123456/Name") =
      some (str "123456") ∧
    extract_game_id (str "not-a-game") = none := by
  refine ⟨(C8_identifier_resolution (str "123456")).1 (by decide), by decide, ?_⟩
  refine (C8_identifier_resolution (str "not-a-game")).2.2 ⟨by decide, ?_⟩
  intro c hc
  cases h : containsSub (str "not-a-game") (str "app/" ++ [c]) with
  | false => rfl
  | true =>
    exfalso
    have h2 := containsSub_mono (str "app/") [c] h
    exact absurd h2 (by decide)

/-- C9: a download request with an unparseable identifier returns failure
with the user-facing message and leaves the whole downloader state (status,
identity, metrics, log, links) exactly unchanged. -/
theorem C9_invalid_input_no_mutation (ok : Bool) (now : ℚ) (inp : Str)
    (s : Downloader) (h : extract_game_id inp = none) :
    download_game ok now inp s = (s, false, str "Invalid game ID or URL") :=
  download_game_invalid ok now inp s h

/-- C9 witness: the request `"not-a-game"` against the startup state. -/
theorem C9_invalid_input_no_mutation_witness :
    download_game true 0 (str "not-a-game") initDownloader =
      (initDownloader, false, str "Invalid game ID or URL") :=
  C9_invalid_input_no_mutation true 0 (str "not-a-game") initDownloader
    (by decide)

/-- C10: a cancellation request with no live child process (none ever
started, or already exited) returns `False` and leaves the state unchanged;
in particular the status is not set to `cancelled`. -/
theorem C10_cancel_without_live_process (s : Downloader)
    (h : ¬ s.process = some ProcState.running) :
    cancel_download s = (s, false) :=
  cancel_download_dead s h

/-- C10 witness: cancelling at startup (no process) and after exit. -/
theorem C10_cancel_without_live_process_witness :
    cancel_download initDownloader = (initDownloader, false) ∧
    cancel_download dlCancelledDead = (dlCancelledDead, false) :=
  ⟨C10_cancel_without_live_process initDownloader (by decide),
   C10_cancel_without_live_process dlCancelledDead (by decide)⟩

/-- C7: if the line stream ends while the session is still `downloading`
and no line contained a success or failure marker, the status transitions
to `error` and the log gains a synthetic entry containing "unexpected". -/
theorem C7_unexpected_exit (lines : List (ℚ × Str)) (s : Downloader)
    (hs : s.current_download.status = Status.downloading)
    (h : ∀ p ∈ lines, containsSub p.2 (str "Success!") = false ∧
      containsSub p.2 (str "ERROR!") = false ∧
      containsSub p.2 (str "Failed") = false) :
    (monitor_run lines s).current_download.status = Status.error ∧
    ∃ e ∈ (monitor_run lines s).current_download.log,
      containsSub e (str "unexpected") = true := by
  have hst : (monitorLines lines s).current_download.status =
      Status.downloading :=
    (monitorLines_status_plain lines s h).trans hs
  unfold monitor_run
  rw [monitor_end_of_downloading _ hst]
  refine ⟨rfl, str "Process ended unexpectedly", ?_, by decide⟩
  exact List.mem_append_right _ (List.mem_singleton.mpr rfl)

/-- C7 witness: a marker-free run from a `downloading` session. -/
theorem C7_unexpected_exit_witness :
    (monitor_run [(1, str "Update state (0x61)")] dlRunning).current_download.status =
      Status.error ∧
    ∃ e ∈ (monitor_run [(1, str "Update state (0x61)")] dlRunning).current_download.log,
      containsSub e (str "unexpected") = true :=
  C7_unexpected_exit [(1, str "Update state (0x61)")] dlRunning rfl (by decide)

/-- C5 counterexample: the line `"5 B / 10 B"` contains no percent sign and
no `KB`/`MB`/`GB` unit at all — so it contains neither pattern named by the
claim — yet `_parse_progress` still overwrites `current_size` (the regex
accepts any `\w+` unit, not only KB/MB/GB). -/
theorem C5_counterexample :
    containsSub (str "5 B / 10 B") ['%'] = false ∧
    containsSub (str "5 B / 10 B") (str "KB") = false ∧
    containsSub (str "5 B / 10 B") (str "MB") = false ∧
    containsSub (str "5 B / 10 B") (str "GB") = false ∧
    initDownload.current_size = 0 ∧ initDownload.total_size = 0 ∧
    (parse_progress 1 (str "5 B / 10 B") initDownload).current_size = 5 ∧
    (parse_progress 1 (str "5 B / 10 B") initDownload).total_size = 10 := by
  refine ⟨by decide, by decide, by decide, by decide, rfl, rfl, by decide,
    by decide⟩

/-- C5 amended: a line matched by neither of the code's two regexes — no
`\d+\.?\d*%` occurrence and no `\d+\.?\d* \w+ / \d+\.?\d* \w+` occurrence
with ANY word as unit — leaves the whole session record (all metrics)
unchanged. -/
theorem C5_unmatched_line_frame (now : ℚ) (line : Str) (d : Download)
    (hp : searchPercent line = none) (hs : searchSize line = none) :
    parse_progress now line d = d :=
  parse_progress_nomatch d hp hs

/-- C5 witness: a plain SteamCMD status line changes nothing. -/
theorem C5_unmatched_line_frame_witness :
    parse_progress 7 (str "Connecting anonymously to Steam...") initDownload =
      initDownload :=
  C5_unmatched_line_frame 7 (str "Connecting anonymously to Steam...")
    initDownload (by decide) (by decide)

/-- C4 counterexample: the line `"1 q / 2 q 3 KB / 4 KB"` contains the size
expression `"3 KB / 4 KB"` with units in {KB, MB, GB}, but `re.search`
takes the leftmost match `"1 q / 2 q"` (any `\w+` unit is accepted), so the
values written to `current_size`/`total_size` are 1 and 2 — neither the
normalized values 3/1024 and 4/1024 of the KB expression nor its raw
values. -/
theorem C4_counterexample :
    containsSub (str "1 q / 2 q 3 KB / 4 KB") (str "3 KB / 4 KB") = true ∧
    (parse_progress 0 (str "1 q / 2 q 3 KB / 4 KB") initDownload).current_size
      = 1 ∧
    (parse_progress 0 (str "1 q / 2 q 3 KB / 4 KB") initDownload).total_size
      = 2 ∧
    ¬ ((1 : ℚ) = 3 / 1024) ∧ ¬ ((2 : ℚ) = 4 / 1024) := by
  refine ⟨by decide, by decide, by decide, by norm_num, by norm_num⟩

/-- C4 amended: `_parse_progress` writes the two values of the LEFTMOST
`\d+\.?\d* \w+ / \d+\.?\d* \w+` match (any word accepted as unit) to
`current_size`/`total_size`; a KB value is divided by 1024, a GB value
multiplied by 1024, and an MB value (like any other unit) is unchanged. -/
theorem C4_size_normalization (now : ℚ) (line : Str) (d : Download)
    (n1 u1 n2 u2 : Str) (h : searchSize line = some (n1, u1, n2, u2)) :
    ((parse_progress now line d).current_size = convertToMB (parseNum n1) u1 ∧
     (parse_progress now line d).total_size = convertToMB (parseNum n2) u2) ∧
    (∀ v : ℚ, convertToMB v (str "KB") = v / 1024 ∧
      convertToMB v (str "MB") = v ∧ convertToMB v (str "GB") = v * 1024) :=
  ⟨parse_progress_sizes now d h,
   fun v => ⟨convertToMB_KB v, convertToMB_MB v, convertToMB_GB v⟩⟩

/-- C4 witness: `"45.30 KB / 2 GB"` is normalized to 45.3/1024 MB and
2048 MB. -/
theorem C4_size_normalization_witness :
    (parse_progress 0 (str "45.30 KB / 2 GB") initDownload).current_size =
      453 / 10240 ∧
    (parse_progress 0 (str "45.30 KB / 2 GB") initDownload).total_size =
      2048 := by
  obtain ⟨⟨h1, h2⟩, hconv⟩ :=
    C4_size_normalization 0 (str "45.30 KB / 2 GB") initDownload
      (str "45.30") (str "KB") (str "2") (str "GB") (by decide)
  constructor
  · rw [h1, (hconv (parseNum (str "45.30"))).1,
      parseNum_eval _ (str "30") (by decide)]
    rw [show digitsToNat ((str "45.30").takeWhile Char.isDigit) = 45 from by
      decide]
    rw [show digitsToNat (str "30") = 30 from by decide]
    norm_num [str]
  · rw [h2, (hconv (parseNum (str "2"))).2.2, parseNum_nil (by decide)]
    rw [show digitsToNat ((str "2").takeWhile Char.isDigit) = 2 from by decide]
    norm_num

/-- C6 counterexample: in a run whose stream carries the success marker on
two lines, `_create_public_links` is invoked twice, not exactly once —
the loop re-fires on every marker line. -/
theorem C6_counterexample :
    containsSub (str "Success! App fully installed.") (str "Success!") = true ∧
    dlRunning.publishCalls = 0 ∧
    (monitor_run [(1, str "Success! App fully installed."),
        (2, str "Success! App fully installed.")] dlRunning).publishCalls = 2 := by
  refine ⟨by decide, rfl, by decide⟩

/-- C6 amended: every line containing the success marker sets the status to
`completed`, forces `progress` to 100 and invokes the Link Publisher once;
over a whole run the publisher is invoked exactly once per success-marker
line (so a run with exactly one such line invokes it exactly once). -/
theorem C6_success_marker (now : ℚ) (line : Str) (s : Downloader)
    (h : containsSub line (str "Success!") = true) :
    (monitor_line now line s).current_download.status = Status.completed ∧
    (monitor_line now line s).current_download.progress = 100 ∧
    (monitor_line now line s).publishCalls = s.publishCalls + 1 ∧
    (∀ lines : List (ℚ × Str), ∀ s2 : Downloader,
      (monitor_run lines s2).publishCalls = s2.publishCalls + countSuccess lines) := by
  obtain ⟨h1, h2, h3, -, -⟩ := monitor_line_success now s h
  exact ⟨h1, h2, h3, fun lines s2 => monitor_run_calls lines s2⟩

/-- C6 witness: a single success line completes the session at 100% with
one publisher invocation. -/
theorem C6_success_marker_witness :
    (monitor_line 0 (str "Success! App fully installed.") dlRunning).current_download.status
      = Status.completed ∧
    (monitor_line 0 (str "Success! App fully installed.") dlRunning).current_download.progress
      = 100 ∧
    (monitor_line 0 (str "Success! App fully installed.") dlRunning).publishCalls = 1 ∧
    (monitor_run [(0, str "Success! App fully installed.")] dlRunning).publishCalls = 1 := by
  obtain ⟨h1, h2, h3, h4⟩ :=
    C6_success_marker 0 (str "Success! App fully installed.") dlRunning (by decide)
  refine ⟨h1, h2, by simpa using h3, ?_⟩
  rw [h4]
  decide

/-- C1 counterexample: from the terminal status `completed` (reached while
the child is still emitting output), a later line containing the failure
marker moves the status to `error`, and a cancellation request while the
child is still live moves it to `cancelled` — terminal statuses are not
preserved. -/
theorem C1_counterexample :
    dlCompleted.current_download.status = Status.completed ∧
    (monitor_line 3 (str "Failed to write file") dlCompleted).current_download.status
      = Status.error ∧
    (cancel_download dlCompleted).1.current_download.status = Status.cancelled := by
  refine ⟨rfl, by decide, by decide⟩

/-- C1 amended: a terminal status (`completed`, `error`, `cancelled`) is
preserved by every output line containing no success/failure marker, by the
end-of-stream check of the Monitor Loop, and by a cancellation request when
no child process is live; only a marker line, a cancellation with a live
child, or a new download request can change it. -/
theorem C1_terminal_preservation (now : ℚ) (line : Str) (s : Downloader)
    (hterm : s.current_download.status = Status.completed ∨
      s.current_download.status = Status.error ∨
      s.current_download.status = Status.cancelled)
    (h1 : containsSub line (str "Success!") = false)
    (h2 : containsSub line (str "ERROR!") = false)
    (h3 : containsSub line (str "Failed") = false) :
    (monitor_line now line s).current_download.status =
      s.current_download.status ∧
    (monitor_end s).current_download.status = s.current_download.status ∧
    (¬ s.process = some ProcState.running → cancel_download s = (s, false)) := by
  refine ⟨monitor_line_status_plain now s h1 h2 h3, ?_, cancel_download_dead s⟩
  have hne : s.current_download.status ≠ Status.downloading := by
    rcases hterm with h | h | h <;> rw [h] <;> exact fun hc => by cases hc
  rw [monitor_end_of_terminal s hne]

/-- C1 witness: a cancelled session with the child already gone is left
untouched by a plain line, by the end-of-stream check and by a second
cancellation request. -/
theorem C1_terminal_preservation_witness :
    (monitor_line 0 (str "Update state (0x5)") dlCancelledDead).current_download.status
      = Status.cancelled ∧
    (monitor_end dlCancelledDead).current_download.status = Status.cancelled ∧
    cancel_download dlCancelledDead = (dlCancelledDead, false) := by
  obtain ⟨h1, h2, h3⟩ :=
    C1_terminal_preservation 0 (str "Update state (0x5)") dlCancelledDead
      (Or.inr (Or.inr rfl)) (by decide) (by decide) (by decide)
  exact ⟨h1, h2, h3 (by decide)⟩

/-- C2: the code violates the claim.  `download_game` rebuilds
`current_download` but never clears `self.public_links`, so after one
completed download published links, a new accepted request resets the
session (through `preparing` to `downloading`) while the Status Reporter
still exposes the previous session's links with `status ≠ completed`. -/
theorem C2_stale_links :
    (runOps c2ops initDownloader).current_download.status =
      Status.downloading ∧
    ¬ (runOps c2ops initDownloader).current_download.status =
      Status.completed ∧
    ¬ (get_download_status 20 (runOps c2ops initDownloader)).public_links = [] := by
  refine ⟨by decide, by decide, by decide⟩

/-- C3 counterexample: on the line `"10 MB / 5 MB"` (bytes_done >
bytes_total) with elapsed 1 s, the code stores
`int((5 - 10) / 10) = 0` — Python `int()` truncates toward zero — while
"(bytes_total - bytes_done) / rate rounded down to whole seconds" is
`⌊-0.5⌋ = -1`. -/
theorem C3_counterexample :
    (parse_progress 1 (str "10 MB / 5 MB")
      { initDownload with start_time := some 0 }).remaining_time = some 0 ∧
    ⌊((5 : ℚ) - 10) / (10 / ((1 : ℚ) - 0))⌋ = -1 ∧
    ¬ ((0 : ℤ) = -1) := by
  have h : searchSize (str "10 MB / 5 MB") =
      some (str "10", str "MB", str "5", str "MB") := by decide
  have hp : searchPercent (str "10 MB / 5 MB") = none := by decide
  have hc : convertToMB (parseNum (str "10")) (str "MB") = 10 := by
    rw [convertToMB_MB, parseNum_nil (by decide)]
    rw [show digitsToNat ((str "10").takeWhile Char.isDigit) = 10 from by decide]
    norm_num
  have ht5 : convertToMB (parseNum (str "5")) (str "MB") = 5 := by
    rw [convertToMB_MB, parseNum_nil (by decide)]
    rw [show digitsToNat ((str "5").takeWhile Char.isDigit) = 5 from by decide]
    norm_num
  refine ⟨?_, ?_, by decide⟩
  · unfold parse_progress
    rw [applyPercent_none _ hp, applySize_some _ h]
    rw [applyRate_fast rfl (by norm_num) (by rw [hc]; norm_num)]
    have hval : ((convertToMB (parseNum (str "5")) (str "MB") -
        convertToMB (parseNum (str "10")) (str "MB")) /
        (convertToMB (parseNum (str "10")) (str "MB") / ((1 : ℚ) - 0))) =
        -1 / 2 := by
      rw [hc, ht5]; norm_num
    show some (pyInt _) = some 0
    rw [hval, pyInt, if_neg (by norm_num)]
    norm_num
  · have h12 : ((5 : ℚ) - 10) / (10 / ((1 : ℚ) - 0)) = -1 / 2 := by norm_num
    rw [h12]
    norm_num

/-- C3 amended: when a size expression is parsed and `start_time` is set,
with elapsed = now - start: if elapsed > 0 the code sets
`speed = bytes_done / elapsed`, and if that speed > 0 it sets
`remaining_time = int((bytes_total - bytes_done) / speed)` — Python `int()`
truncation toward zero, which equals rounding down exactly when the
quotient is nonnegative (`pyInt q = ⌊q⌋` for `0 ≤ q`); with elapsed ≤ 0
speed is not recomputed, and with speed ≤ 0 the remaining time is not
recomputed. -/
theorem C3_rate_eta (now st : ℚ) (line : Str) (d : Download)
    (n1 u1 n2 u2 : Str) (h : searchSize line = some (n1, u1, n2, u2))
    (hst : d.start_time = some st) :
    ((0 < now - st →
      (parse_progress now line d).speed =
        convertToMB (parseNum n1) u1 / (now - st) ∧
      (0 < convertToMB (parseNum n1) u1 / (now - st) →
        (parse_progress now line d).remaining_time =
          some (pyInt ((convertToMB (parseNum n2) u2 -
            convertToMB (parseNum n1) u1) /
            (convertToMB (parseNum n1) u1 / (now - st))))) ∧
      (¬ 0 < convertToMB (parseNum n1) u1 / (now - st) →
        (parse_progress now line d).remaining_time = d.remaining_time)) ∧
     (¬ 0 < now - st →
      (parse_progress now line d).speed = d.speed ∧
      (parse_progress now line d).remaining_time = d.remaining_time)) ∧
    (∀ q : ℚ, 0 ≤ q → pyInt q = ⌊q⌋) := by
  obtain ⟨-, hst2, -, -, hspd, hrem, -, -⟩ := applyPercent_fields line d
  have hpp : parse_progress now line d =
      applyRate now (convertToMB (parseNum n1) u1)
        (convertToMB (parseNum n2) u2)
        { applyPercent line d with
            current_size := convertToMB (parseNum n1) u1,
            total_size := convertToMB (parseNum n2) u2 } := by
    unfold parse_progress
    rw [applySize_some _ h]
  have hupd : ({ applyPercent line d with
      current_size := convertToMB (parseNum n1) u1,
      total_size := convertToMB (parseNum n2) u2 } : Download).start_time =
      some st := by
    simp [hst2, hst]
  refine ⟨⟨?_, ?_⟩, fun q hq => by simp [pyInt, hq]⟩
  · intro hel
    by_cases hsp : 0 < convertToMB (parseNum n1) u1 / (now - st)
    · rw [hpp, applyRate_fast hupd hel hsp]
      exact ⟨rfl, fun _ => rfl, fun hn => absurd hsp hn⟩
    · rw [hpp, applyRate_slow hupd hel hsp]
      refine ⟨rfl, fun hp => absurd hp hsp, fun _ => ?_⟩
      simp [hrem]
  · intro hel
    rw [hpp, applyRate_no_elapsed hupd hel]
    exact ⟨by simp [hspd], by simp [hrem]⟩

/-- C3 witness: the spec scenario `"12.5% 45.30 MB / 362.10 MB"` with
`start_time` 10 seconds in the past: percent 12.5, bytes_done 45.3,
bytes_total 362.1, rate 4.53 MB/s, and eta `int(316.8 / 4.53) = 69`
seconds (the exact quotient is 69.93…, so the value rounded down is 69,
within one second of the spec's "≈ 70"). -/
theorem C3_rate_eta_witness :
    (parse_progress 10 (str "12.5% 45.30 MB / 362.10 MB")
      { initDownload with start_time := some 0 }).progress = 25 / 2 ∧
    (parse_progress 10 (str "12.5% 45.30 MB / 362.10 MB")
      { initDownload with start_time := some 0 }).current_size = 453 / 10 ∧
    (parse_progress 10 (str "12.5% 45.30 MB / 362.10 MB")
      { initDownload with start_time := some 0 }).total_size = 3621 / 10 ∧
    (parse_progress 10 (str "12.5% 45.30 MB / 362.10 MB")
      { initDownload with start_time := some 0 }).speed = 453 / 100 ∧
    (parse_progress 10 (str "12.5% 45.30 MB / 362.10 MB")
      { initDownload with start_time := some 0 }).remaining_time = some 69 ∧
    (69 : ℤ) ≤ 70 ∧ (70 : ℤ) - 69 ≤ 1 := by
  have hsz : searchSize (str "12.5% 45.30 MB / 362.10 MB") =
      some (str "45.30", str "MB", str "362.10", str "MB") := by decide
  have hpc : searchPercent (str "12.5% 45.30 MB / 362.10 MB") =
      some (str "12.5") := by decide
  have hc : convertToMB (parseNum (str "45.30")) (str "MB") = 453 / 10 := by
    rw [convertToMB_MB, parseNum_eval _ (str "30") (by decide)]
    rw [show digitsToNat ((str "45.30").takeWhile Char.isDigit) = 45 from by
      decide]
    rw [show digitsToNat (str "30") = 30 from by decide]
    norm_num [str]
  have ht : convertToMB (parseNum (str "362.10")) (str "MB") = 3621 / 10 := by
    rw [convertToMB_MB, parseNum_eval _ (str "10") (by decide)]
    rw [show digitsToNat ((str "362.10").takeWhile Char.isDigit) = 362 from by
      decide]
    rw [show digitsToNat (str "10") = 10 from by decide]
    norm_num [str]
  obtain ⟨⟨hfast, -⟩, -⟩ :=
    C3_rate_eta 10 0 (str "12.5% 45.30 MB / 362.10 MB")
      { initDownload with start_time := some 0 }
      (str "45.30") (str "MB") (str "362.10") (str "MB") hsz rfl
  obtain ⟨hspeed, hrem, -⟩ := hfast (by norm_num)
  obtain ⟨hcur, htot⟩ := parse_progress_sizes
    10 { initDownload with start_time := some 0 } hsz
  refine ⟨?_, ?_, ?_, ?_, ?_, by norm_num, by norm_num⟩
  · rw [parse_progress_progress _ hpc,
      parseNum_eval _ (str "5") (by decide)]
    rw [show digitsToNat ((str "12.5").takeWhile Char.isDigit) = 12 from by
      decide]
    rw [show digitsToNat (str "5") = 5 from by decide]
    norm_num [str]
  · rw [hcur, hc]
  · rw [htot, ht]
  · rw [hspeed, hc]; norm_num
  · rw [hrem (by rw [hc]; norm_num), hc, ht]
    have hval : (((3621 : ℚ) / 10 - 453 / 10) / ((453 / 10) / (10 - 0))) =
        31680 / 453 := by norm_num
    rw [hval, pyInt, if_pos (by norm_num)]
    norm_num
